import Mathlib

/-!
# simple-jit: IR construction and verification

A shallow embedding of `src/main.cpp` (`assertFunctionCorrect`,
`assertModuleCorrect`, `codegen`).  The three functions of the program are
translated from the source.  The LLVM library they call is not part of the
repository, so the IR data model, the type interning, the instruction builder
and the verifier are modelled from the specification (sections 3 and 4); every
such definition says so in its doc comment.

All state is passed explicitly: the `LLVMContext` (the intern table of types)
and the `Module` (which owns functions, blocks and instructions) are threaded
through the calls that mutate them in the C++ program.  Pointers become
handles: a type is a position in the intern table, a function is its name, a
block is a (function, index) pair and an instruction result is a
(function, id) pair.
-/

namespace SimpleJit

/-! ## Type system (spec 3, 4.1) -/

/-- Modelled from the spec: the closed set of primitive kinds of section 3
("primitive numeric types (e.g., a 64-bit floating type)"); LLVM's `Type`
hierarchy is not in the repository.  `double` is the 64-bit floating type. -/
inductive PrimitiveKind
  | double
  | float
  | int1
  | int32
  deriving DecidableEq, Repr

/-- A type handle: the identity of an interned type, its position in the
intern table of the context that created it. -/
abbrev TypeRef := Nat

/-- Modelled from the spec: section 3 "Type", a primitive type or a function
type (ordered parameter types, one return type, a variadic flag).  The
component types of a function type are handles, as LLVM's are pointers. -/
inductive Ty
  | primitive (kind : PrimitiveKind)
  | function (returnType : TypeRef) (params : List TypeRef) (isVarArg : Bool)
  deriving DecidableEq, Repr

/-- Modelled from the spec: section 3 "Context", the owner of all interned
types.  `types` is the intern table; a type's identity is its position. -/
structure LLVMContext where
  types : List Ty
  deriving DecidableEq, Repr

/-- The type a handle stands for in a context, if the context created it. -/
def LLVMContext.lookup (ctx : LLVMContext) (t : TypeRef) : Option Ty :=
  ctx.types[t]?

/-- Modelled from the spec: interning (glossary: "returning a single shared
identity for structurally equal immutable values").  A type already in the
table keeps its handle and the context is unchanged; a new one is appended. -/
def LLVMContext.intern (ctx : LLVMContext) (t : Ty) : TypeRef × LLVMContext :=
  if t ∈ ctx.types then (ctx.types.indexOf t, ctx)
  else (ctx.types.length, { types := ctx.types ++ [t] })

/-- Modelled from the spec: section 4.1 `getPrimitiveType(kind)`. -/
def getPrimitiveType (kind : PrimitiveKind) (ctx : LLVMContext) : TypeRef × LLVMContext :=
  ctx.intern (Ty.primitive kind)

/-- Modelled from the spec: section 4.1
`getFunctionType(returnType, paramTypes, isVarArg)`. -/
def getFunctionType (returnType : TypeRef) (paramTypes : List TypeRef) (isVarArg : Bool)
    (ctx : LLVMContext) : TypeRef × LLVMContext :=
  ctx.intern (Ty.function returnType paramTypes isVarArg)

/-- Modelled from the spec: `llvm::Type::getDoubleTy(ctx)` is
`getPrimitiveType` at the 64-bit floating kind. -/
def getDoubleTy (ctx : LLVMContext) : TypeRef × LLVMContext :=
  getPrimitiveType PrimitiveKind.double ctx

/-- Modelled from the spec: `llvm::FunctionType::get(ret, params, isVarArg)`
is `getFunctionType`. -/
def FunctionType.get (returnType : TypeRef) (paramTypes : List TypeRef) (isVarArg : Bool)
    (ctx : LLVMContext) : TypeRef × LLVMContext :=
  getFunctionType returnType paramTypes isVarArg ctx

/-- The parameter types of a function type; empty for a handle that is not a
function type of the context. -/
def LLVMContext.paramTypes (ctx : LLVMContext) (t : TypeRef) : List TypeRef :=
  match ctx.lookup t with
  | some (Ty.function _ params _) => params
  | _ => []

/-- The return type of a function type, if the handle is one. -/
def LLVMContext.returnType (ctx : LLVMContext) (t : TypeRef) : Option TypeRef :=
  match ctx.lookup t with
  | some (Ty.function ret _ _) => some ret
  | _ => none

/-! ## Values and IR entities (spec 3, 4.2, 4.3) -/

/-- Modelled from the spec: section 3 "Value", the closed variant over
constants, arguments and instruction results (section 9).  A constant carries
its type and literal payload; an argument and an instruction result carry a
non-owning back-reference to their function and a stable position or id. -/
inductive Value
  | constant (type : TypeRef) (payload : Int)
  | argument (function : String) (index : Nat)
  | instruction (function : String) (id : Nat)
  deriving DecidableEq, Repr

/-- Modelled from the spec: the linkage attribute of section 3 ("at minimum:
externally-visible vs. private"). -/
inductive Linkage
  | ExternalLinkage
  | PrivateLinkage
  deriving DecidableEq, Repr

/-- Modelled from the spec: the closed variant over opcodes (section 9):
floating and integer binary operations, return, and the two branches. -/
inductive Opcode
  | FAdd
  | FSub
  | FMul
  | FDiv
  | Add
  | Sub
  | Mul
  | Ret
  | Br
  | CondBr
  deriving DecidableEq, Repr

/-- Terminators (glossary): return or branch. -/
def Opcode.isTerminator : Opcode → Bool
  | Opcode.Ret => true
  | Opcode.Br => true
  | Opcode.CondBr => true
  | _ => false

/-- Whether a binary opcode is defined for a type: the floating operations
for the floating kinds, the integer operations for the integer kinds; nothing
else, and no opcode for a function type. -/
def Opcode.definedFor : Opcode → Ty → Bool
  | Opcode.FAdd, Ty.primitive k => k = PrimitiveKind.double ∨ k = PrimitiveKind.float
  | Opcode.FSub, Ty.primitive k => k = PrimitiveKind.double ∨ k = PrimitiveKind.float
  | Opcode.FMul, Ty.primitive k => k = PrimitiveKind.double ∨ k = PrimitiveKind.float
  | Opcode.FDiv, Ty.primitive k => k = PrimitiveKind.double ∨ k = PrimitiveKind.float
  | Opcode.Add, Ty.primitive k => k = PrimitiveKind.int1 ∨ k = PrimitiveKind.int32
  | Opcode.Sub, Ty.primitive k => k = PrimitiveKind.int1 ∨ k = PrimitiveKind.int32
  | Opcode.Mul, Ty.primitive k => k = PrimitiveKind.int1 ∨ k = PrimitiveKind.int32
  | _, _ => false

/-- Modelled from the spec: section 3 "Instruction": an opcode, ordered
operand values, branch targets (block indices of the same function), the
result type if it produces a result, and a result name.  `id` is the stable
identity operand references use. -/
structure Instruction where
  id : Nat
  opcode : Opcode
  operands : List Value
  targets : List Nat
  type : Option TypeRef
  name : String
  deriving DecidableEq, Repr

/-- Modelled from the spec: section 3 "BasicBlock", an ordered sequence of
instructions. -/
structure BasicBlock where
  name : String
  instructions : List Instruction
  deriving DecidableEq, Repr

/-- Modelled from the spec: section 3 "Argument", a named typed value; its
position is its index in the function's argument sequence. -/
structure Argument where
  name : String
  type : TypeRef
  deriving DecidableEq, Repr

/-- Modelled from the spec: section 3 "Function". -/
structure Function where
  name : String
  type : TypeRef
  linkage : Linkage
  arguments : List Argument
  blocks : List BasicBlock
  deriving DecidableEq, Repr

/-- Modelled from the spec: section 3 "Module": a name, a source identifier
and the ordered functions, looked up by name. -/
structure Module where
  name : String
  sourceFileName : String
  functions : List Function
  deriving DecidableEq, Repr

/-- A block handle: the owning function and the block's index in it. -/
structure BlockRef where
  function : String
  index : Nat
  deriving DecidableEq, Repr

/-- The errors of section 7 (a), the failed `assert` of `codegen`, the
`std::runtime_error` the two assert functions throw, and the dereference of a
function handle the module does not hold. -/
inductive Error
  | DuplicateNameError
  | IndexOutOfRangeError
  | TypeMismatchError
  | InvalidTargetError
  | assertion (msg : String)
  | runtime_error (what : String)
  | danglingHandle
  deriving DecidableEq, Repr

/-- Modelled from the spec: `llvm::Module(name, ctx)`; the source identifier
starts as the module name, as in LLVM. -/
def Module.new (name : String) : Module :=
  { name := name, sourceFileName := name, functions := [] }

/-- Modelled from the spec: `Module::setSourceFileName`. -/
def Module.setSourceFileName (m : Module) (s : String) : Module :=
  { m with sourceFileName := s }

/-- The function a name maps to in the module. -/
def Module.getFunction (m : Module) (name : String) : Option Function :=
  m.functions.find? (fun f => f.name = name)

/-- Replace the function of that name by its image under `g`. -/
def Module.modifyFunction (m : Module) (name : String) (g : Function → Function) : Module :=
  { m with functions := m.functions.map (fun f => if f.name = name then g f else f) }

/-- Modelled from the spec: section 4.3 `Module.createFunction(name, type,
linkage)`: `DuplicateNameError` if the name exists; otherwise the function is
created with one unnamed argument per parameter type of `type`, no blocks,
and inserted at the end of the module.  Returns the function's handle. -/
def Function.Create (type : TypeRef) (linkage : Linkage) (name : String) (m : Module)
    (ctx : LLVMContext) : Except Error (String × Module) :=
  if name ∈ m.functions.map (fun f => f.name) then
    Except.error Error.DuplicateNameError
  else
    Except.ok (name,
      { m with functions := m.functions ++
          [{ name := name, type := type, linkage := linkage,
             arguments := (ctx.paramTypes type).map (fun t => { name := "", type := t }),
             blocks := [] }] })

/-- Modelled from the spec: section 4.3 `Function.createBasicBlock(name)`:
appends a new empty block to the function and returns its handle. -/
def BasicBlock.Create (name : String) (function : String) (m : Module) : BlockRef × Module :=
  let index := match m.getFunction function with
    | some f => f.blocks.length
    | none => 0
  ({ function := function, index := index },
   m.modifyFunction function
     (fun f => { f with blocks := f.blocks ++ [{ name := name, instructions := [] }] }))

/-- `foo->arg_size()`. -/
def Module.arg_size (m : Module) (function : String) : Nat :=
  match m.getFunction function with
  | some f => f.arguments.length
  | none => 0

/-- Modelled from the spec: section 4.3 `Function.getArgument(index)`:
`IndexOutOfRangeError` if `index >= arity`. -/
def Module.getArgument (m : Module) (function : String) (index : Nat) : Except Error Value :=
  if index < m.arg_size function then Except.ok (Value.argument function index)
  else Except.error Error.IndexOutOfRangeError

/-- Modelled from the spec: `Argument::setName`: only the name of the
argument at that position changes. -/
def Module.setName (m : Module) (v : Value) (name : String) : Module :=
  match v with
  | Value.argument function index =>
    m.modifyFunction function (fun f =>
      match f.arguments[index]? with
      | some a => { f with arguments := f.arguments.set index { a with name := name } }
      | none => f)
  | _ => m

/-- Modelled from the spec: `llvm::ConstantFP::get(type, v)`: a stand-alone
constant of that type with that literal payload.  The payload is kept as the
literal the program writes (the integer literal `9` of line 66, which the
double type represents exactly); no floating-point arithmetic is evaluated. -/
def ConstantFP.get (type : TypeRef) (v : Int) : Value :=
  Value.constant type v

/-- The instruction with that id in the function. -/
def Function.findInstruction (f : Function) (id : Nat) : Option Instruction :=
  (f.blocks.flatMap (fun b => b.instructions)).find? (fun i => i.id = id)

/-- Modelled from the spec: section 4.2 "any Value exposes its Type". -/
def Module.valueType (m : Module) : Value → Option TypeRef
  | Value.constant t _ => some t
  | Value.argument function index =>
    (m.getFunction function).bind (fun f => (f.arguments[index]?).map (fun a => a.type))
  | Value.instruction function id =>
    (m.getFunction function).bind (fun f => (f.findInstruction id).bind (fun i => i.type))

/-! ## Instruction builder (spec 4.4) -/

/-- Modelled from the spec: section 4.4, a cursor bound to one block of one
function and an insertion position in it. -/
structure IRBuilder where
  function : String
  block : Nat
  position : Nat
  deriving DecidableEq, Repr

/-- Modelled from the spec: `llvm::IRBuilder<>(bb)`: the cursor is bound to
`bb` and positioned at its end (section 4.4 "by default, append at the end"). -/
def IRBuilder.new (bb : BlockRef) (m : Module) : IRBuilder :=
  { function := bb.function, block := bb.index,
    position := match m.getFunction bb.function with
      | some f => match f.blocks[bb.index]? with
        | some b => b.instructions.length
        | none => 0
      | none => 0 }

/-- The id the next instruction created in the function gets: the number of
instructions the function holds (instructions are never removed). -/
def Function.freshId (f : Function) : Nat :=
  (f.blocks.map (fun b => b.instructions.length)).sum

/-- Insert an instruction into one block at a position. -/
def Function.insertInstruction (f : Function) (block position : Nat) (i : Instruction) :
    Function :=
  match f.blocks[block]? with
  | some b =>
    let b1 : BasicBlock :=
      { b with instructions := b.instructions.take position ++ i :: b.instructions.drop position }
    { f with blocks := f.blocks.set block b1 }
  | none => f

/-- The id the builder gives its next instruction. -/
def IRBuilder.freshId (b : IRBuilder) (m : Module) : Nat :=
  match m.getFunction b.function with
  | some f => f.freshId
  | none => 0

/-- Modelled from the spec: section 4.4 `createBinaryOp(opcode, lhs, rhs,
resultName)`: requires `lhs.type == rhs.type` and the opcode defined for that
type, `TypeMismatchError` otherwise; the new instruction has the operand
type, is inserted at the cursor, and the cursor advances past it. -/
def IRBuilder.createBinaryOp (b : IRBuilder) (opcode : Opcode) (lhs rhs : Value)
    (resultName : String) (m : Module) (ctx : LLVMContext) :
    Except Error (Value × IRBuilder × Module) :=
  match m.valueType lhs, m.valueType rhs with
  | some tl, some tr =>
    match ctx.lookup tl with
    | some ty =>
      if tl = tr ∧ opcode.definedFor ty = true then
        let id := b.freshId m
        Except.ok (Value.instruction b.function id,
          { b with position := b.position + 1 },
          m.modifyFunction b.function (fun f =>
            f.insertInstruction b.block b.position
              { id := id, opcode := opcode, operands := [lhs, rhs], targets := [],
                type := some tl, name := resultName }))
      else Except.error Error.TypeMismatchError
    | none => Except.error Error.TypeMismatchError
  | _, _ => Except.error Error.TypeMismatchError

/-- Modelled from the spec: `IRBuilder::CreateFAdd(lhs, rhs, name)` is
`createBinaryOp` at the opcode `FAdd`. -/
def IRBuilder.CreateFAdd (b : IRBuilder) (lhs rhs : Value) (name : String) (m : Module)
    (ctx : LLVMContext) : Except Error (Value × IRBuilder × Module) :=
  b.createBinaryOp Opcode.FAdd lhs rhs name m ctx

/-- The declared return type of the function the builder inserts into. -/
def IRBuilder.owningReturnType (b : IRBuilder) (m : Module) (ctx : LLVMContext) :
    Option TypeRef :=
  (m.getFunction b.function).bind (fun f => ctx.returnType f.type)

/-- Modelled from the spec: section 4.4 `createReturn(value)`: requires
`value.type == owningFunction.returnType`, `TypeMismatchError` otherwise; the
instruction is a terminator, inserted at the cursor. -/
def IRBuilder.createReturn (b : IRBuilder) (value : Value) (m : Module) (ctx : LLVMContext) :
    Except Error (IRBuilder × Module) :=
  match m.valueType value, b.owningReturnType m ctx with
  | some tv, some tr =>
    if tv = tr then
      Except.ok ({ b with position := b.position + 1 },
        m.modifyFunction b.function (fun f =>
          f.insertInstruction b.block b.position
            { id := b.freshId m, opcode := Opcode.Ret, operands := [value], targets := [],
              type := none, name := "" }))
    else Except.error Error.TypeMismatchError
  | _, _ => Except.error Error.TypeMismatchError

/-- Modelled from the spec: `IRBuilder::CreateRet(value)` is `createReturn`. -/
def IRBuilder.CreateRet (b : IRBuilder) (value : Value) (m : Module) (ctx : LLVMContext) :
    Except Error (IRBuilder × Module) :=
  b.createReturn value m ctx

/-! ## Verifier (spec 4.5) -/

/-- Modelled from the spec: the entity reference of a diagnostic (section 6
"entity reference + human-readable message"). -/
inductive Location
  | module (name : String)
  | function (name : String)
  | block (function : String) (index : Nat)
  | instruction (function : String) (block : Nat) (index : Nat)
  deriving DecidableEq, Repr

/-- Modelled from the spec: a (location, message) diagnostic of section 4.5. -/
structure Diagnostic where
  location : Location
  message : String
  deriving DecidableEq, Repr

/-- Map a list with the position of each element, from position `k` on, and
concatenate the results. -/
def indexedFlatMap {α β : Type} (g : Nat → α → List β) : Nat → List α → List β
  | _, [] => []
  | k, a :: rest => g k a ++ indexedFlatMap g (k + 1) rest

/-- Every instruction of the function with its block index and its position
in the block, in order. -/
def Function.placed (f : Function) : List (Nat × Nat × Instruction) :=
  indexedFlatMap (fun b bb => indexedFlatMap (fun k i => [(b, k, i)]) 0 bb.instructions)
    0 f.blocks

/-- Block index and position of the instruction with that id. -/
def Function.locate (f : Function) (id : Nat) : Option (Nat × Nat) :=
  (f.placed.find? (fun p => p.2.2.id = id)).map (fun p => (p.1, p.2.1))

/-- The type of a value as seen from inside the function `f`: arguments and
instruction results of other functions have none. -/
def Function.valueType (f : Function) : Value → Option TypeRef
  | Value.constant t _ => some t
  | Value.argument function index =>
    if function = f.name then (f.arguments[index]?).map (fun a => a.type) else none
  | Value.instruction function id =>
    if function = f.name then (f.findInstruction id).bind (fun i => i.type) else none

/-- The control-flow successors of a block: the targets of its last
instruction. -/
def Function.successors (f : Function) (b : Nat) : List Nat :=
  match f.blocks[b]? with
  | some bb =>
    match bb.instructions.getLast? with
    | some i => i.targets
    | none => []
  | none => []

/-- One round of the reachability computation that never enters `avoid`. -/
def Function.reachStep (f : Function) (avoid : Nat) (seen : List Nat) : List Nat :=
  (seen ++ (seen.flatMap f.successors).filter (fun b => decide (b ≠ avoid))).dedup

/-- The blocks reachable from the entry block (index 0) along paths that do
not pass through `avoid`. -/
def Function.reachableAvoiding (f : Function) (avoid : Nat) : List Nat :=
  if avoid = 0 then [] else Nat.iterate (f.reachStep avoid) f.blocks.length [0]

/-- Modelled from the spec: dominance (glossary): block `a` dominates block
`b` if every control-flow path from the entry to `b` passes through `a`. -/
def Function.dominates (f : Function) (a b : Nat) : Bool :=
  decide (a = b) || decide (b ∉ f.reachableAvoiding a)

/-- Modelled from the spec: section 4.5 check 1, argument count and types
match the function's type. -/
def Verifier.checkSignature (ctx : LLVMContext) (f : Function) : List Diagnostic :=
  match ctx.lookup f.type with
  | some (Ty.function _ params _) =>
    if f.arguments.map (fun a => a.type) = params then []
    else [{ location := Location.function f.name,
            message := "argument count or types do not match the function type" }]
  | _ => [{ location := Location.function f.name,
            message := "the type of the function is not a function type" }]

/-- Terminators that are not the last instruction of their block. -/
def Verifier.checkMidBlock (function : String) (b : Nat) :
    Nat → List Instruction → List Diagnostic
  | _, [] => []
  | _, [_] => []
  | k, i :: j :: rest =>
    (if i.opcode.isTerminator = true then
      [{ location := Location.instruction function b k,
         message := "terminator in the middle of a basic block" }]
     else []) ++ Verifier.checkMidBlock function b (k + 1) (j :: rest)

/-- Modelled from the spec: section 4.5 check 2 for one block: non-empty, the
last instruction a terminator, no terminator mid-block. -/
def Verifier.checkBlock (function : String) (b : Nat) (bb : BasicBlock) : List Diagnostic :=
  (match bb.instructions.getLast? with
    | none => [{ location := Location.block function b, message := "basic block is empty" }]
    | some i =>
      if i.opcode.isTerminator = true then []
      else [{ location := Location.block function b,
              message := "basic block does not end in a terminator" }])
  ++ Verifier.checkMidBlock function b 0 bb.instructions

/-- Modelled from the spec: section 4.5 check 3 for one operand of the
instruction at position `k` of block `b`: a constant, an argument of `f`, or
the result of an instruction that dominates the use (same block and earlier,
or in a block that dominates the use's block). -/
def Verifier.operandVisible (f : Function) (b k : Nat) : Value → Bool
  | Value.constant _ _ => true
  | Value.argument function index =>
    decide (function = f.name) && decide (index < f.arguments.length)
  | Value.instruction function id =>
    decide (function = f.name) &&
      (match f.locate id with
       | some (bd, kd) => if bd = b then decide (kd < k) else f.dominates bd b
       | none => false)

/-- Check 3 over all operands of all instructions. -/
def Verifier.checkOperands (f : Function) : List Diagnostic :=
  f.placed.flatMap (fun p =>
    (p.2.2.operands.filter (fun v => !Verifier.operandVisible f p.1 p.2.1 v)).map (fun _ =>
      { location := Location.instruction f.name p.1 p.2.1,
        message := "operand is not a constant, an argument of the function or a dominating instruction" }))

/-- Modelled from the spec: section 4.5 check 4, every branch target belongs
to the same function. -/
def Verifier.checkTargets (f : Function) : List Diagnostic :=
  f.placed.flatMap (fun p =>
    (p.2.2.targets.filter (fun t => decide (¬ t < f.blocks.length))).map (fun _ =>
      { location := Location.instruction f.name p.1 p.2.1,
        message := "branch target is not a block of the function" }))

/-- The typing rule of one instruction: the builder's preconditions of
section 4.4, re-checked. -/
def Verifier.wellTyped (ctx : LLVMContext) (f : Function) (i : Instruction) : Bool :=
  match i.opcode with
  | Opcode.Ret =>
    (match i.operands with
     | [v] => (f.valueType v).isSome && decide (f.valueType v = ctx.returnType f.type)
     | _ => false)
  | Opcode.Br => decide (i.operands = []) && decide (i.targets.length = 1)
  | Opcode.CondBr =>
    (match i.operands with
     | [c] => decide ((f.valueType c).bind ctx.lookup = some (Ty.primitive PrimitiveKind.int1))
              && decide (i.targets.length = 2)
     | _ => false)
  | op =>
    (match i.operands with
     | [l, r] =>
       (match f.valueType l with
        | some t =>
          decide (f.valueType r = some t) && decide (i.type = some t) &&
            (match ctx.lookup t with
             | some ty => op.definedFor ty
             | none => false)
        | none => false)
     | _ => false)

/-- Modelled from the spec: the type-mismatched operand defect of section 8
property 5, reported by `verifyFunction` for every ill-typed instruction. -/
def Verifier.checkTypes (ctx : LLVMContext) (f : Function) : List Diagnostic :=
  f.placed.flatMap (fun p =>
    if Verifier.wellTyped ctx f p.2.2 = true then []
    else [{ location := Location.instruction f.name p.1 p.2.1,
            message := "instruction operands are ill-typed" }])

/-- Modelled from the spec: section 4.5 `verifyFunction(f)`: checks 1 to 4
and the typing of instructions, every violation accumulated. -/
def Verifier.verifyFunction (ctx : LLVMContext) (f : Function) : List Diagnostic :=
  Verifier.checkSignature ctx f
  ++ indexedFlatMap (Verifier.checkBlock f.name) 0 f.blocks
  ++ Verifier.checkOperands f
  ++ Verifier.checkTargets f
  ++ Verifier.checkTypes ctx f

/-- Module-level check: function names are unique. -/
def Verifier.checkNames (m : Module) : List Diagnostic :=
  if (m.functions.map (fun f => f.name)).Nodup then []
  else [{ location := Location.module m.name, message := "function names are not unique" }]

/-- Module-level check: every constant used by a function has a type of this
context. -/
def Verifier.checkConstants (ctx : LLVMContext) (m : Module) : List Diagnostic :=
  m.functions.flatMap (fun f =>
    f.placed.flatMap (fun p =>
      (p.2.2.operands.filter (fun v =>
        match v with
        | Value.constant t _ => (ctx.lookup t).isNone
        | _ => false)).map (fun _ =>
          { location := Location.instruction f.name p.1 p.2.1,
            message := "constant of another context" })))

/-- Modelled from the spec: section 4.5 `verifyModule(m)`: `verifyFunction`
over every function, plus the module-level checks. -/
def Verifier.verifyModule (ctx : LLVMContext) (m : Module) : List Diagnostic :=
  m.functions.flatMap (Verifier.verifyFunction ctx)
  ++ Verifier.checkNames m
  ++ Verifier.checkConstants ctx m

/-- The text of a location. -/
def Location.render : Location → String
  | Location.module name => "module " ++ name
  | Location.function name => "function " ++ name
  | Location.block fn b => "function " ++ fn ++ ", block " ++ toString b
  | Location.instruction fn b k =>
    "function " ++ fn ++ ", block " ++ toString b ++ ", instruction " ++ toString k

/-- The text of all diagnostics, one line each. -/
def renderDiagnostics (ds : List Diagnostic) : String :=
  String.join (ds.map (fun d => d.location.render ++ ": " ++ d.message ++ "\n"))

/-- Modelled from the spec: `llvm::verifyFunction(f, &errs)`: the result is
`true` when the function is broken (the diagnostics are non-empty), and the
text written to the stream is the rendering of all diagnostics. -/
def llvm.verifyFunction (ctx : LLVMContext) (f : Function) : Bool × String :=
  (!(Verifier.verifyFunction ctx f).isEmpty, renderDiagnostics (Verifier.verifyFunction ctx f))

/-- Modelled from the spec: `llvm::verifyModule(m, &errs)`, as
`llvm.verifyFunction`. -/
def llvm.verifyModule (ctx : LLVMContext) (m : Module) : Bool × String :=
  (!(Verifier.verifyModule ctx m).isEmpty, renderDiagnostics (Verifier.verifyModule ctx m))

/-! ## The program (`src/main.cpp`) -/

/-- Source `assertFunctionCorrect` (lines 17-24).  `verifyFunction f` stands
for the call `llvm::verifyFunction(f, &errs)`: its boolean result and the
text it writes to the stream `errs` over the empty string `errMsg`. -/
def assertFunctionCorrect (verifyFunction : Function → Bool × String) (f : Function) :
    Except Error Unit :=
  let errMsg := ""
  let errs := errMsg ++ (verifyFunction f).2
  if (verifyFunction f).1 == true then
    throw (Error.runtime_error errs)
  else
    pure ()

/-- Source `assertModuleCorrect` (lines 28-35), as `assertFunctionCorrect`
with `llvm::verifyModule(m, &errs)`. -/
def assertModuleCorrect (verifyModule : Module → Bool × String) (m : Module) :
    Except Error Unit :=
  let errMsg := ""
  let errs := errMsg ++ (verifyModule m).2
  if (verifyModule m).1 == true then
    throw (Error.runtime_error errs)
  else
    pure ()

/-- Source `codegen` (lines 37-86).  The two verifiers are parameters; the
context and the module are threaded through the calls that mutate them, and
the result carries the context next to the module. -/
def codegen (verifyFunction : LLVMContext → Function → Bool × String)
    (verifyModule : LLVMContext → Module → Bool × String)
    (moduleName : String) (llvmContext : LLVMContext) : Except Error (Module × LLVMContext) := do
  let module := Module.new moduleName
  let module := module.setSourceFileName "file.name"
  -- the function's type: double(double)
  let (retTy, llvmContext) := getDoubleTy llvmContext
  let (paramTy, llvmContext) := getDoubleTy llvmContext
  let (fooType, llvmContext) := FunctionType.get retTy [paramTy] false llvmContext
  let (foo, module) ← Function.Create fooType Linkage.ExternalLinkage "foo" module llvmContext
  -- add a basic block to the function
  let (bb, module) := BasicBlock.Create "entry" foo module
  -- get a constant
  let (nineTy, llvmContext) := getDoubleTy llvmContext
  let nine := ConstantFP.get nineTy 9
  -- create an add instruction: arg + 9
  let irBuilder := IRBuilder.new bb module
  if module.arg_size foo ≠ 1 then
    throw (Error.assertion "Our function takes only one argument")
  let arg ← module.getArgument foo 0
  let module := module.setName arg "arg"
  let (result, irBuilder, module) ← irBuilder.CreateFAdd arg nine "sum" module llvmContext
  -- return statement
  let (_, module) ← irBuilder.CreateRet result module llvmContext
  -- verify the created function and module
  match module.getFunction foo with
  | none => throw Error.danglingHandle
  | some fooFn =>
    assertFunctionCorrect (verifyFunction llvmContext) fooFn
    assertModuleCorrect (verifyModule llvmContext) module
    return (module, llvmContext)

/-- The scenario of the function without its return: `codegen` (lines 37-86)
with the statement `irBuilder.CreateRet(result)` (line 79) left out and
nothing else changed. -/
def codegenOmittingReturn (verifyFunction : LLVMContext → Function → Bool × String)
    (verifyModule : LLVMContext → Module → Bool × String)
    (moduleName : String) (llvmContext : LLVMContext) : Except Error (Module × LLVMContext) := do
  let module := Module.new moduleName
  let module := module.setSourceFileName "file.name"
  let (retTy, llvmContext) := getDoubleTy llvmContext
  let (paramTy, llvmContext) := getDoubleTy llvmContext
  let (fooType, llvmContext) := FunctionType.get retTy [paramTy] false llvmContext
  let (foo, module) ← Function.Create fooType Linkage.ExternalLinkage "foo" module llvmContext
  let (bb, module) := BasicBlock.Create "entry" foo module
  let (nineTy, llvmContext) := getDoubleTy llvmContext
  let nine := ConstantFP.get nineTy 9
  let irBuilder := IRBuilder.new bb module
  if module.arg_size foo ≠ 1 then
    throw (Error.assertion "Our function takes only one argument")
  let arg ← module.getArgument foo 0
  let module := module.setName arg "arg"
  let (_, _, module) ← irBuilder.CreateFAdd arg nine "sum" module llvmContext
  match module.getFunction foo with
  | none => throw Error.danglingHandle
  | some fooFn =>
    assertFunctionCorrect (verifyFunction llvmContext) fooFn
    assertModuleCorrect (verifyModule llvmContext) module
    return (module, llvmContext)

/-! ## The values `codegen` computes -/

/-- The primitive double type. -/
def doubleTy : Ty := Ty.primitive PrimitiveKind.double

/-- The handle the first request for the double type returns (line 52). -/
def doubleRef (ctx : LLVMContext) : TypeRef := (getDoubleTy ctx).1

/-- The handle of the function type double(double) (lines 51-52). -/
def fooTypeRef (ctx : LLVMContext) : TypeRef :=
  (FunctionType.get (doubleRef ctx) [doubleRef ctx] false (getDoubleTy ctx).2).1

/-- The context after the function type was requested (lines 51-52). -/
def finalContext (ctx : LLVMContext) : LLVMContext :=
  (FunctionType.get (doubleRef ctx) [doubleRef ctx] false (getDoubleTy ctx).2).2

/-- The instruction `sum = FAdd arg, 9.0` over the double handle `d`. -/
def sumInstruction (d : TypeRef) : Instruction :=
  { id := 0, opcode := Opcode.FAdd,
    operands := [Value.argument "foo" 0, Value.constant d 9],
    targets := [], type := some d, name := "sum" }

/-- The instruction `Return sum`. -/
def retInstruction : Instruction :=
  { id := 1, opcode := Opcode.Ret, operands := [Value.instruction "foo" 0],
    targets := [], type := none, name := "" }

/-- The function `foo` as `codegen` leaves it, over the handles `d` of the
double type and `ft` of the function type. -/
def fooFunction (d ft : TypeRef) : Function :=
  { name := "foo", type := ft, linkage := Linkage.ExternalLinkage,
    arguments := [{ name := "arg", type := d }],
    blocks := [{ name := "entry", instructions := [sumInstruction d, retInstruction] }] }

/-- The module `codegen` builds. -/
def fooModule (moduleName : String) (d ft : TypeRef) : Module :=
  { name := moduleName, sourceFileName := "file.name", functions := [fooFunction d ft] }

/-- The function `foo` of the scenario without the return: block `entry`
ends with the `FAdd`. -/
def fooUnterminated (d ft : TypeRef) : Function :=
  { name := "foo", type := ft, linkage := Linkage.ExternalLinkage,
    arguments := [{ name := "arg", type := d }],
    blocks := [{ name := "entry", instructions := [sumInstruction d] }] }

/-- The module of the scenario without the return. -/
def unterminatedModule (moduleName : String) (d ft : TypeRef) : Module :=
  { name := moduleName, sourceFileName := "file.name", functions := [fooUnterminated d ft] }

/-! ## Interning -/

theorem intern_fst (ctx : LLVMContext) (t : Ty) : (ctx.intern t).1 = ctx.types.indexOf t := by
  unfold LLVMContext.intern
  split
  · rfl
  · rename_i h
    simp [List.indexOf_eq_length.mpr h]

theorem intern_mem (ctx : LLVMContext) (t : Ty) : t ∈ (ctx.intern t).2.types := by
  unfold LLVMContext.intern
  split <;> simp_all

theorem intern_of_mem (ctx : LLVMContext) (t : Ty) (h : t ∈ ctx.types) :
    ctx.intern t = (ctx.types.indexOf t, ctx) := by
  simp [LLVMContext.intern, h]

theorem intern_mem_mono (ctx : LLVMContext) (t u : Ty) (h : u ∈ ctx.types) :
    u ∈ (ctx.intern t).2.types := by
  unfold LLVMContext.intern
  split <;> simp_all

theorem intern_indexOf_mono (ctx : LLVMContext) (t u : Ty) (h : u ∈ ctx.types) :
    (ctx.intern t).2.types.indexOf u = ctx.types.indexOf u := by
  unfold LLVMContext.intern
  split
  · rfl
  · simp [List.indexOf_append_of_mem h]

theorem lookup_indexOf (ctx : LLVMContext) (t : Ty) (h : t ∈ ctx.types) :
    ctx.lookup (ctx.types.indexOf t) = some t := by
  simp [LLVMContext.lookup, List.getElem?_indexOf h]

theorem intern_indexOf_self (ctx : LLVMContext) (t : Ty) :
    (ctx.intern t).2.types.indexOf t = (ctx.intern t).1 := by
  unfold LLVMContext.intern
  split
  · rfl
  · rename_i h
    simp [List.indexOf_append_of_not_mem h]

theorem intern_again (ctx : LLVMContext) (t : Ty) :
    (ctx.intern t).2.intern t = ((ctx.intern t).1, (ctx.intern t).2) := by
  rw [intern_of_mem _ _ (intern_mem ctx t), intern_indexOf_self]

theorem intern_lookup (ctx : LLVMContext) (t : Ty) :
    (ctx.intern t).2.lookup (ctx.intern t).1 = some t := by
  rw [← intern_indexOf_self]
  exact lookup_indexOf _ _ (intern_mem ctx t)

/-- Interning `u` after `t` leaves the handle of `t` valid and unchanged. -/
theorem intern_intern (ctx : LLVMContext) (t u : Ty) :
    ((ctx.intern t).2.intern u).2.intern t = ((ctx.intern t).1, ((ctx.intern t).2.intern u).2) := by
  rw [intern_of_mem _ _ (intern_mem_mono _ _ _ (intern_mem ctx t)),
    intern_indexOf_mono _ _ _ (intern_mem ctx t), intern_indexOf_self]

theorem intern_intern_lookup (ctx : LLVMContext) (t u : Ty) :
    ((ctx.intern t).2.intern u).2.lookup (ctx.intern t).1 = some t := by
  rw [← intern_indexOf_self, ← intern_indexOf_mono _ u _ (intern_mem ctx t)]
  exact lookup_indexOf _ _ (intern_mem_mono _ _ _ (intern_mem ctx t))

theorem getDoubleTy_again (ctx : LLVMContext) :
    getDoubleTy (getDoubleTy ctx).2 = (doubleRef ctx, (getDoubleTy ctx).2) :=
  intern_again ctx _

theorem getDoubleTy_final (ctx : LLVMContext) :
    getDoubleTy (finalContext ctx) = (doubleRef ctx, finalContext ctx) :=
  intern_intern ctx _ _

theorem lookup_doubleRef (ctx : LLVMContext) :
    (finalContext ctx).lookup (doubleRef ctx) = some doubleTy :=
  intern_intern_lookup ctx _ _

theorem lookup_fooTypeRef (ctx : LLVMContext) :
    (finalContext ctx).lookup (fooTypeRef ctx)
      = some (Ty.function (doubleRef ctx) [doubleRef ctx] false) :=
  intern_lookup _ _

theorem codegen_eq (verifyFunction : LLVMContext → Function → Bool × String)
    (verifyModule : LLVMContext → Module → Bool × String)
    (moduleName : String) (ctx : LLVMContext) :
    codegen verifyFunction verifyModule moduleName ctx =
      (assertFunctionCorrect (verifyFunction (finalContext ctx))
          (fooFunction (doubleRef ctx) (fooTypeRef ctx)) >>= fun _ =>
        assertModuleCorrect (verifyModule (finalContext ctx))
          (fooModule moduleName (doubleRef ctx) (fooTypeRef ctx)) >>= fun _ =>
        pure (fooModule moduleName (doubleRef ctx) (fooTypeRef ctx), finalContext ctx)) := by
  have h1 : getDoubleTy ctx = (doubleRef ctx, (getDoubleTy ctx).2) := rfl
  have h2 := getDoubleTy_again ctx
  have h3 : FunctionType.get (doubleRef ctx) [doubleRef ctx] false (getDoubleTy ctx).2
      = (fooTypeRef ctx, finalContext ctx) := rfl
  have h4 := getDoubleTy_final ctx
  have h5 := lookup_doubleRef ctx
  have h6 := lookup_fooTypeRef ctx
  unfold codegen
  rw [h1]
  simp only []
  rw [h2]
  simp only []
  rw [h3]
  simp only []
  generalize doubleRef ctx = d at *
  generalize fooTypeRef ctx = ft at *
  generalize finalContext ctx = c at *
  rw [h4]
  have hp : c.paramTypes ft = [d] := by simp [LLVMContext.paramTypes, h6]
  have hr : c.returnType ft = some d := by simp [LLVMContext.returnType, h6]
  simp [Function.Create, Module.new, Module.setSourceFileName, hp, BasicBlock.Create,
    Module.getFunction, Module.modifyFunction, Module.arg_size, Module.getArgument,
    Module.setName, IRBuilder.new, ConstantFP.get, IRBuilder.CreateFAdd,
    IRBuilder.createBinaryOp, Module.valueType, h5, doubleTy, Opcode.definedFor,
    IRBuilder.freshId, Function.freshId, Function.insertInstruction, IRBuilder.CreateRet,
    IRBuilder.createReturn, IRBuilder.owningReturnType, hr, Function.findInstruction,
    fooFunction, fooModule, sumInstruction, retInstruction, bind, Except.bind, pure,
    Except.pure]

theorem assertFunctionCorrect_eq (v : Function → Bool × String) (f : Function) :
    assertFunctionCorrect v f
      = if (v f).1 = true then Except.error (Error.runtime_error (v f).2) else Except.ok () := by
  unfold assertFunctionCorrect
  by_cases h : (v f).1 = true <;> simp [h, throw, throwThe, MonadExceptOf.throw, pure, Except.pure]

theorem verifyFunction_foo (c : LLVMContext) (d ft : TypeRef)
    (hd : c.lookup d = some doubleTy)
    (hft : c.lookup ft = some (Ty.function d [d] false)) :
    Verifier.verifyFunction c (fooFunction d ft) = [] := by
  have hr : c.returnType ft = some d := by simp [LLVMContext.returnType, hft]
  simp [Verifier.verifyFunction, Verifier.checkSignature, fooFunction, hft, indexedFlatMap,
    Verifier.checkBlock, Verifier.checkMidBlock, Opcode.isTerminator, Verifier.checkOperands,
    Function.placed, Verifier.operandVisible, Function.locate, Verifier.checkTargets,
    Verifier.checkTypes, Verifier.wellTyped, Function.valueType, Function.findInstruction,
    hd, hr, doubleTy, Opcode.definedFor, sumInstruction, retInstruction]

theorem verifyModule_foo (c : LLVMContext) (name : String) (d ft : TypeRef)
    (hd : c.lookup d = some doubleTy)
    (hft : c.lookup ft = some (Ty.function d [d] false)) :
    Verifier.verifyModule c (fooModule name d ft) = [] := by
  have h := verifyFunction_foo c d ft hd hft
  have hp : (fooFunction d ft).placed = [(0, 0, sumInstruction d), (0, 1, retInstruction)] := rfl
  simp [Verifier.verifyModule, fooModule, h, Verifier.checkNames, Verifier.checkConstants, hp, hd,
    sumInstruction, retInstruction]

theorem assertModuleCorrect_eq (v : Module → Bool × String) (m : Module) :
    assertModuleCorrect v m
      = if (v m).1 = true then Except.error (Error.runtime_error (v m).2) else Except.ok () := by
  unfold assertModuleCorrect
  by_cases h : (v m).1 = true <;> simp [h, throw, throwThe, MonadExceptOf.throw, pure, Except.pure]

theorem codegenOmittingReturn_eq (verifyFunction : LLVMContext → Function → Bool × String)
    (verifyModule : LLVMContext → Module → Bool × String)
    (moduleName : String) (ctx : LLVMContext) :
    codegenOmittingReturn verifyFunction verifyModule moduleName ctx =
      (assertFunctionCorrect (verifyFunction (finalContext ctx))
          (fooUnterminated (doubleRef ctx) (fooTypeRef ctx)) >>= fun _ =>
        assertModuleCorrect (verifyModule (finalContext ctx))
          (unterminatedModule moduleName (doubleRef ctx) (fooTypeRef ctx)) >>= fun _ =>
        pure (unterminatedModule moduleName (doubleRef ctx) (fooTypeRef ctx), finalContext ctx)) := by
  have h1 : getDoubleTy ctx = (doubleRef ctx, (getDoubleTy ctx).2) := rfl
  have h2 := getDoubleTy_again ctx
  have h3 : FunctionType.get (doubleRef ctx) [doubleRef ctx] false (getDoubleTy ctx).2
      = (fooTypeRef ctx, finalContext ctx) := rfl
  have h4 := getDoubleTy_final ctx
  have h5 := lookup_doubleRef ctx
  have h6 := lookup_fooTypeRef ctx
  unfold codegenOmittingReturn
  rw [h1]
  simp only []
  rw [h2]
  simp only []
  rw [h3]
  simp only []
  generalize doubleRef ctx = d at *
  generalize fooTypeRef ctx = ft at *
  generalize finalContext ctx = c at *
  rw [h4]
  have hp : c.paramTypes ft = [d] := by simp [LLVMContext.paramTypes, h6]
  simp [Function.Create, Module.new, Module.setSourceFileName, hp, BasicBlock.Create,
    Module.getFunction, Module.modifyFunction, Module.arg_size, Module.getArgument,
    Module.setName, IRBuilder.new, ConstantFP.get, IRBuilder.CreateFAdd,
    IRBuilder.createBinaryOp, Module.valueType, h5, doubleTy, Opcode.definedFor,
    IRBuilder.freshId, Function.freshId, Function.insertInstruction,
    fooUnterminated, unterminatedModule, sumInstruction, bind, Except.bind, pure,
    Except.pure]

theorem verifyFunction_unterminated (c : LLVMContext) (d ft : TypeRef)
    (hd : c.lookup d = some doubleTy)
    (hft : c.lookup ft = some (Ty.function d [d] false)) :
    Verifier.verifyFunction c (fooUnterminated d ft)
      = [{ location := Location.block "foo" 0,
           message := "basic block does not end in a terminator" }] := by
  simp [Verifier.verifyFunction, Verifier.checkSignature, fooUnterminated, hft, indexedFlatMap,
    Verifier.checkBlock, Verifier.checkMidBlock, Opcode.isTerminator, Verifier.checkOperands,
    Function.placed, Verifier.operandVisible, Verifier.checkTargets,
    Verifier.checkTypes, Verifier.wellTyped, Function.valueType,
    hd, doubleTy, Opcode.definedFor, sumInstruction]

/-- The outcome of `codegen` in terms of the two verifier results. -/
theorem codegen_cases (vf : LLVMContext → Function → Bool × String)
    (vm : LLVMContext → Module → Bool × String) (moduleName : String) (ctx : LLVMContext) :
    codegen vf vm moduleName ctx =
      if (vf (finalContext ctx) (fooFunction (doubleRef ctx) (fooTypeRef ctx))).1 = true then
        Except.error (Error.runtime_error
          (vf (finalContext ctx) (fooFunction (doubleRef ctx) (fooTypeRef ctx))).2)
      else if (vm (finalContext ctx)
          (fooModule moduleName (doubleRef ctx) (fooTypeRef ctx))).1 = true then
        Except.error (Error.runtime_error
          (vm (finalContext ctx) (fooModule moduleName (doubleRef ctx) (fooTypeRef ctx))).2)
      else Except.ok (fooModule moduleName (doubleRef ctx) (fooTypeRef ctx), finalContext ctx) := by
  rw [codegen_eq, assertFunctionCorrect_eq, assertModuleCorrect_eq]
  split
  · rfl
  · split <;> rfl

theorem llvm_verifyFunction_broken (ctx : LLVMContext) (f : Function) :
    (llvm.verifyFunction ctx f).1 = true ↔ Verifier.verifyFunction ctx f ≠ [] := by
  simp [llvm.verifyFunction, List.isEmpty_iff]

theorem llvm_verifyModule_broken (ctx : LLVMContext) (m : Module) :
    (llvm.verifyModule ctx m).1 = true ↔ Verifier.verifyModule ctx m ≠ [] := by
  simp [llvm.verifyModule, List.isEmpty_iff]

/-- A module `codegen` returns is the module it built. -/
theorem codegen_ok (vf : LLVMContext → Function → Bool × String)
    (vm : LLVMContext → Module → Bool × String) (moduleName : String) (ctx : LLVMContext)
    (r : Module × LLVMContext) (h : codegen vf vm moduleName ctx = Except.ok r) :
    r = (fooModule moduleName (doubleRef ctx) (fooTypeRef ctx), finalContext ctx) := by
  rw [codegen_cases] at h
  split at h
  · cases h
  · split at h
    · cases h
    · cases h
      rfl

/-- With the verifier of section 4.5, `codegen` returns. -/
theorem codegen_llvm (moduleName : String) (ctx : LLVMContext) :
    codegen llvm.verifyFunction llvm.verifyModule moduleName ctx
      = Except.ok (fooModule moduleName (doubleRef ctx) (fooTypeRef ctx), finalContext ctx) := by
  have hd := lookup_doubleRef ctx
  have hft := lookup_fooTypeRef ctx
  rw [codegen_cases]
  simp [llvm.verifyFunction, llvm.verifyModule, verifyFunction_foo _ _ _ hd hft,
    verifyModule_foo _ moduleName _ _ hd hft]

/-- The only error `codegen` can end in is a verifier's `runtime_error`. -/
theorem codegen_error (vf : LLVMContext → Function → Bool × String)
    (vm : LLVMContext → Module → Bool × String) (moduleName : String) (ctx : LLVMContext)
    (e : Error) (h : codegen vf vm moduleName ctx = Except.error e) :
    ∃ what, e = Error.runtime_error what := by
  rw [codegen_cases] at h
  split at h
  · cases h
    exact ⟨_, rfl⟩
  · split at h
    · cases h
      exact ⟨_, rfl⟩
    · cases h

/-! ## The claims -/

/-- C1: for every module name and context, `codegen` hands the verifiers the
function `foo : double(double)` with the single block `entry` holding
`sum = FAdd arg, 9` then `Return sum`, and the module holding it; both
`verifyFunction` and `verifyModule` report zero diagnostics on them, neither
`assertFunctionCorrect` nor `assertModuleCorrect` throws, `codegen` returns
the module, and the type of argument 0 of `foo` is the primitive double type. -/
theorem codegen_passes_verification (moduleName : String) (ctx : LLVMContext) :
    (∀ (vf : LLVMContext → Function → Bool × String)
       (vm : LLVMContext → Module → Bool × String),
      codegen vf vm moduleName ctx =
        (assertFunctionCorrect (vf (finalContext ctx))
            (fooFunction (doubleRef ctx) (fooTypeRef ctx)) >>= fun _ =>
          assertModuleCorrect (vm (finalContext ctx))
            (fooModule moduleName (doubleRef ctx) (fooTypeRef ctx)) >>= fun _ =>
          pure (fooModule moduleName (doubleRef ctx) (fooTypeRef ctx), finalContext ctx))) ∧
    (finalContext ctx).lookup (fooFunction (doubleRef ctx) (fooTypeRef ctx)).type
      = some (Ty.function (doubleRef ctx) [doubleRef ctx] false) ∧
    (finalContext ctx).lookup (doubleRef ctx) = some (Ty.primitive PrimitiveKind.double) ∧
    Verifier.verifyFunction (finalContext ctx)
      (fooFunction (doubleRef ctx) (fooTypeRef ctx)) = [] ∧
    Verifier.verifyModule (finalContext ctx)
      (fooModule moduleName (doubleRef ctx) (fooTypeRef ctx)) = [] ∧
    assertFunctionCorrect (llvm.verifyFunction (finalContext ctx))
      (fooFunction (doubleRef ctx) (fooTypeRef ctx)) = Except.ok () ∧
    assertModuleCorrect (llvm.verifyModule (finalContext ctx))
      (fooModule moduleName (doubleRef ctx) (fooTypeRef ctx)) = Except.ok () ∧
    codegen llvm.verifyFunction llvm.verifyModule moduleName ctx
      = Except.ok (fooModule moduleName (doubleRef ctx) (fooTypeRef ctx), finalContext ctx) ∧
    ((fooFunction (doubleRef ctx) (fooTypeRef ctx)).arguments[0]?).map
        (fun a => (finalContext ctx).lookup a.type)
      = some (some (Ty.primitive PrimitiveKind.double)) := by
  have hd := lookup_doubleRef ctx
  have hft := lookup_fooTypeRef ctx
  have hf := verifyFunction_foo _ _ _ hd hft
  have hm := verifyModule_foo _ moduleName _ _ hd hft
  refine ⟨fun vf vm => codegen_eq vf vm moduleName ctx, hft, hd, hf, hm, ?_, ?_, ?_, ?_⟩
  · rw [assertFunctionCorrect_eq]
    simp [llvm.verifyFunction, hf]
  · rw [assertModuleCorrect_eq]
    simp [llvm.verifyModule, hm]
  · rw [codegen_cases]
    simp [llvm.verifyFunction, llvm.verifyModule, hf, hm]
  · simp [fooFunction, hd, doubleTy]

/-- C2: `codegen` runs the function verifier on `foo` first and the module
verifier on the module second, and returns the module if and only if both
report no violation.  If the function verifier reports a violation `codegen`
throws its text whatever the module verifier would say (it is not consulted);
if only the module verifier reports one `codegen` throws its text; a returned
module is always the verified one. -/
theorem codegen_releases_only_verified (vf : LLVMContext → Function → Bool × String)
    (vm : LLVMContext → Module → Bool × String) (moduleName : String) (ctx : LLVMContext) :
    codegen vf vm moduleName ctx =
      (assertFunctionCorrect (vf (finalContext ctx))
          (fooFunction (doubleRef ctx) (fooTypeRef ctx)) >>= fun _ =>
        assertModuleCorrect (vm (finalContext ctx))
          (fooModule moduleName (doubleRef ctx) (fooTypeRef ctx)) >>= fun _ =>
        pure (fooModule moduleName (doubleRef ctx) (fooTypeRef ctx), finalContext ctx)) ∧
    (fooModule moduleName (doubleRef ctx) (fooTypeRef ctx)).getFunction "foo"
      = some (fooFunction (doubleRef ctx) (fooTypeRef ctx)) ∧
    ((∃ r, codegen vf vm moduleName ctx = Except.ok r) ↔
      ((vf (finalContext ctx) (fooFunction (doubleRef ctx) (fooTypeRef ctx))).1 = false ∧
       (vm (finalContext ctx) (fooModule moduleName (doubleRef ctx) (fooTypeRef ctx))).1
         = false)) ∧
    (∀ r, codegen vf vm moduleName ctx = Except.ok r →
      r = (fooModule moduleName (doubleRef ctx) (fooTypeRef ctx), finalContext ctx)) ∧
    ((vf (finalContext ctx) (fooFunction (doubleRef ctx) (fooTypeRef ctx))).1 = true →
      ∀ vm2 : LLVMContext → Module → Bool × String,
        codegen vf vm2 moduleName ctx = Except.error (Error.runtime_error
          (vf (finalContext ctx) (fooFunction (doubleRef ctx) (fooTypeRef ctx))).2)) ∧
    ((vf (finalContext ctx) (fooFunction (doubleRef ctx) (fooTypeRef ctx))).1 = false →
      (vm (finalContext ctx) (fooModule moduleName (doubleRef ctx) (fooTypeRef ctx))).1 = true →
        codegen vf vm moduleName ctx = Except.error (Error.runtime_error
          (vm (finalContext ctx)
            (fooModule moduleName (doubleRef ctx) (fooTypeRef ctx))).2)) := by
  refine ⟨codegen_eq vf vm moduleName ctx, ?_, ?_, ?_, ?_, ?_⟩
  · simp [fooModule, Module.getFunction, fooFunction]
  · rw [codegen_cases]
    by_cases h1 : (vf (finalContext ctx) (fooFunction (doubleRef ctx) (fooTypeRef ctx))).1 = true
    · simp [h1]
    · by_cases h2 : (vm (finalContext ctx)
          (fooModule moduleName (doubleRef ctx) (fooTypeRef ctx))).1 = true
      · simp [h1, h2]
      · simp [h1, h2]
  · intro r hr
    rw [codegen_cases] at hr
    split at hr
    · cases hr
    · split at hr
      · cases hr
      · cases hr
        rfl
  · intro h1 vm2
    rw [codegen_cases]
    simp [h1]
  · intro h1 h2
    rw [codegen_cases]
    simp [h1, h2]

/-- C3: for every function `f` and every verifier, `assertFunctionCorrect f`
throws if and only if the verifier's result is `true`; what it throws is a
`runtime_error` whose message is exactly the text the verifier wrote in that
call; when the result is `false` it returns normally.  For the verifier of
section 4.5 the result is `true` exactly when the diagnostics are non-empty,
and the message is the rendering of all of them. -/
theorem assertFunctionCorrect_throws_iff (verifyFunction : Function → Bool × String)
    (f : Function) (ctx : LLVMContext) :
    ((∃ e, assertFunctionCorrect verifyFunction f = Except.error e) ↔
      (verifyFunction f).1 = true) ∧
    (∀ e, assertFunctionCorrect verifyFunction f = Except.error e →
      e = Error.runtime_error (verifyFunction f).2) ∧
    ((verifyFunction f).1 = false → assertFunctionCorrect verifyFunction f = Except.ok ()) ∧
    ((∃ e, assertFunctionCorrect (llvm.verifyFunction ctx) f = Except.error e) ↔
      Verifier.verifyFunction ctx f ≠ []) ∧
    (Verifier.verifyFunction ctx f ≠ [] →
      assertFunctionCorrect (llvm.verifyFunction ctx) f
        = Except.error (Error.runtime_error
            (renderDiagnostics (Verifier.verifyFunction ctx f)))) := by
  have key : ∀ v : Function → Bool × String,
      ((∃ e, assertFunctionCorrect v f = Except.error e) ↔ (v f).1 = true) := by
    intro v
    rw [assertFunctionCorrect_eq]
    by_cases h : (v f).1 = true <;> simp [h]
  refine ⟨key _, ?_, ?_, ?_, ?_⟩
  · intro e he
    rw [assertFunctionCorrect_eq] at he
    split at he
    · cases he
      rfl
    · cases he
  · intro h
    rw [assertFunctionCorrect_eq]
    simp [h]
  · rw [key, llvm_verifyFunction_broken]
  · intro h
    rw [assertFunctionCorrect_eq, if_pos ((llvm_verifyFunction_broken ctx f).mpr h)]
    rfl

/-- C4: for every module `m` and every verifier, `assertModuleCorrect m`
throws if and only if the verifier's result is `true`; what it throws is a
`runtime_error` whose message is exactly the text the module verifier wrote;
when the result is `false` it returns normally (the module, passed by
constant reference, is not part of the result).  For the verifier of section
4.5 the result is `true` exactly when the diagnostics are non-empty. -/
theorem assertModuleCorrect_throws_iff (verifyModule : Module → Bool × String)
    (m : Module) (ctx : LLVMContext) :
    ((∃ e, assertModuleCorrect verifyModule m = Except.error e) ↔
      (verifyModule m).1 = true) ∧
    (∀ e, assertModuleCorrect verifyModule m = Except.error e →
      e = Error.runtime_error (verifyModule m).2) ∧
    ((verifyModule m).1 = false → assertModuleCorrect verifyModule m = Except.ok ()) ∧
    ((∃ e, assertModuleCorrect (llvm.verifyModule ctx) m = Except.error e) ↔
      Verifier.verifyModule ctx m ≠ []) ∧
    (Verifier.verifyModule ctx m ≠ [] →
      assertModuleCorrect (llvm.verifyModule ctx) m
        = Except.error (Error.runtime_error
            (renderDiagnostics (Verifier.verifyModule ctx m)))) := by
  have key : ∀ v : Module → Bool × String,
      ((∃ e, assertModuleCorrect v m = Except.error e) ↔ (v m).1 = true) := by
    intro v
    rw [assertModuleCorrect_eq]
    by_cases h : (v m).1 = true <;> simp [h]
  refine ⟨key _, ?_, ?_, ?_, ?_⟩
  · intro e he
    rw [assertModuleCorrect_eq] at he
    split at he
    · cases he
      rfl
    · cases he
  · intro h
    rw [assertModuleCorrect_eq]
    simp [h]
  · rw [key, llvm_verifyModule_broken]
  · intro h
    rw [assertModuleCorrect_eq, if_pos ((llvm_verifyModule_broken ctx m).mpr h)]
    rfl

/-- C5: for every module name, a module `codegen` returns has that name, the
source identifier "file.name", and a function mapping holding exactly one
function, named "foo", with external linkage and the non-variadic function
type double(double); the functions do not depend on the module name.  With
the verifier of section 4.5 `codegen` does return a module. -/
theorem codegen_module_shape (vf : LLVMContext → Function → Bool × String)
    (vm : LLVMContext → Module → Bool × String) (moduleName otherName : String)
    (ctx : LLVMContext) :
    (∀ r, codegen vf vm moduleName ctx = Except.ok r →
      r.1.name = moduleName ∧ r.1.sourceFileName = "file.name" ∧
      ∃ foo, r.1.functions = [foo] ∧
        (∀ n g, r.1.getFunction n = some g ↔ (n = "foo" ∧ g = foo)) ∧
        foo.name = "foo" ∧ foo.linkage = Linkage.ExternalLinkage ∧
        ∃ dbl, r.2.lookup foo.type = some (Ty.function dbl [dbl] false) ∧
          r.2.lookup dbl = some (Ty.primitive PrimitiveKind.double)) ∧
    (∀ r r2, codegen vf vm moduleName ctx = Except.ok r →
      codegen vf vm otherName ctx = Except.ok r2 → r2.1.functions = r.1.functions) ∧
    (∃ r, codegen llvm.verifyFunction llvm.verifyModule moduleName ctx = Except.ok r) := by
  refine ⟨?_, ?_, ⟨_, codegen_llvm moduleName ctx⟩⟩
  · intro r hr
    rw [codegen_ok vf vm moduleName ctx r hr]
    refine ⟨rfl, rfl, fooFunction (doubleRef ctx) (fooTypeRef ctx), rfl, ?_, rfl, rfl,
      doubleRef ctx, lookup_fooTypeRef ctx, lookup_doubleRef ctx⟩
    intro n g
    simp only [fooModule, Module.getFunction, List.find?_cons, List.find?_nil]
    by_cases hn : n = "foo"
    · subst hn
      simp [fooFunction, eq_comm]
    · have hn2 : ¬ ("foo" = n) := fun h => hn h.symm
      simp [fooFunction, hn, hn2]
  · intro r r2 hr hr2
    rw [codegen_ok vf vm moduleName ctx r hr, codegen_ok vf vm otherName ctx r2 hr2]
    rfl

/-- C6: arity invariant for the function `codegen` creates: right after `foo`
is created with the type double(double) it has as many arguments as the type
has parameters, namely one, with the parameter types, and argument 0 has the
double type; so `arg_size() == 1` holds when asserted and taking argument 0
succeeds; naming the argument "arg" leaves its type, its position and the
arity unchanged; and `codegen` never ends in the failed assertion or an
index error. -/
theorem codegen_arity (moduleName : String) (ctx : LLVMContext) :
    ∃ m1 foo,
      Function.Create (fooTypeRef ctx) Linkage.ExternalLinkage "foo"
          ((Module.new moduleName).setSourceFileName "file.name") (finalContext ctx)
        = Except.ok ("foo", m1) ∧
      m1.getFunction "foo" = some foo ∧
      (finalContext ctx).lookup foo.type
        = some (Ty.function (doubleRef ctx) [doubleRef ctx] false) ∧
      foo.arguments.length = ((finalContext ctx).paramTypes foo.type).length ∧
      ((finalContext ctx).paramTypes foo.type).length = 1 ∧
      foo.arguments.map (fun a => a.type) = (finalContext ctx).paramTypes foo.type ∧
      (foo.arguments[0]?).map (fun a => (finalContext ctx).lookup a.type)
        = some (some (Ty.primitive PrimitiveKind.double)) ∧
      m1.arg_size "foo" = 1 ∧
      (BasicBlock.Create "entry" "foo" m1).2.arg_size "foo" = 1 ∧
      (BasicBlock.Create "entry" "foo" m1).2.getArgument "foo" 0
        = Except.ok (Value.argument "foo" 0) ∧
      ((BasicBlock.Create "entry" "foo" m1).2.setName (Value.argument "foo" 0) "arg").valueType
          (Value.argument "foo" 0)
        = (BasicBlock.Create "entry" "foo" m1).2.valueType (Value.argument "foo" 0) ∧
      (BasicBlock.Create "entry" "foo" m1).2.valueType (Value.argument "foo" 0)
        = some (doubleRef ctx) ∧
      ((BasicBlock.Create "entry" "foo" m1).2.setName (Value.argument "foo" 0) "arg").arg_size
          "foo" = 1 ∧
      (((BasicBlock.Create "entry" "foo" m1).2.setName (Value.argument "foo" 0)
          "arg").getFunction "foo").map (fun f => f.arguments)
        = some [{ name := "arg", type := doubleRef ctx }] ∧
      (∀ (vf : LLVMContext → Function → Bool × String)
         (vm : LLVMContext → Module → Bool × String) (e : Error),
        codegen vf vm moduleName ctx = Except.error e →
          e ≠ Error.assertion "Our function takes only one argument" ∧
          e ≠ Error.IndexOutOfRangeError) := by
  have hd := lookup_doubleRef ctx
  have hft := lookup_fooTypeRef ctx
  have hp : (finalContext ctx).paramTypes (fooTypeRef ctx) = [doubleRef ctx] := by
    simp [LLVMContext.paramTypes, hft]
  refine ⟨{ name := moduleName, sourceFileName := "file.name",
            functions := [{ name := "foo", type := fooTypeRef ctx,
                            linkage := Linkage.ExternalLinkage,
                            arguments := [{ name := "", type := doubleRef ctx }],
                            blocks := [] }] },
          { name := "foo", type := fooTypeRef ctx, linkage := Linkage.ExternalLinkage,
            arguments := [{ name := "", type := doubleRef ctx }], blocks := [] },
          ?_, ?_, hft, ?_, ?_, ?_, ?_, ?_, ?_, ?_, ?_, ?_, ?_, ?_, ?_⟩
  · simp [Function.Create, Module.new, Module.setSourceFileName, hp]
  · simp [Module.getFunction]
  · simp [hp]
  · simp [hp]
  · simp [hp]
  · simp [hd, doubleTy]
  · simp [Module.arg_size, Module.getFunction]
  · simp [Module.arg_size, Module.getFunction, BasicBlock.Create, Module.modifyFunction]
  · simp [Module.getArgument, Module.arg_size, Module.getFunction, BasicBlock.Create,
      Module.modifyFunction]
  · simp [Module.setName, Module.valueType, Module.getFunction, BasicBlock.Create,
      Module.modifyFunction]
  · simp [Module.valueType, Module.getFunction, BasicBlock.Create, Module.modifyFunction]
  · simp [Module.setName, Module.arg_size, Module.getFunction, BasicBlock.Create,
      Module.modifyFunction]
  · simp [Module.setName, Module.getFunction, BasicBlock.Create, Module.modifyFunction]
  · intro vf vm e he
    obtain ⟨what, rfl⟩ := codegen_error vf vm moduleName ctx e he
    exact ⟨by simp, by simp⟩

/-- C7: terminator invariant for the function `codegen` verifies and returns:
`foo` has exactly one basic block, `entry`, whose instructions are exactly an
`FAdd` followed by a `Ret`; the block is non-empty, holds exactly one
terminator, the terminator is the last instruction and nothing follows it;
this function passes `verifyFunction`. -/
theorem codegen_terminator (vf : LLVMContext → Function → Bool × String)
    (vm : LLVMContext → Module → Bool × String) (moduleName : String) (ctx : LLVMContext) :
    (∀ r, codegen vf vm moduleName ctx = Except.ok r →
      ∃ foo bb fadd ret, r.1.functions = [foo] ∧ foo.blocks = [bb] ∧ bb.name = "entry" ∧
        bb.instructions = [fadd, ret] ∧ fadd.opcode = Opcode.FAdd ∧ ret.opcode = Opcode.Ret ∧
        bb.instructions ≠ [] ∧
        (bb.instructions.filter (fun i => i.opcode.isTerminator)).length = 1 ∧
        bb.instructions.getLast? = some ret ∧ ret.opcode.isTerminator = true ∧
        (∀ i ∈ bb.instructions.dropLast, i.opcode.isTerminator = false) ∧
        Verifier.verifyFunction r.2 foo = []) ∧
    (∃ r, codegen llvm.verifyFunction llvm.verifyModule moduleName ctx = Except.ok r) := by
  refine ⟨?_, ⟨_, codegen_llvm moduleName ctx⟩⟩
  intro r hr
  rw [codegen_ok vf vm moduleName ctx r hr]
  refine ⟨fooFunction (doubleRef ctx) (fooTypeRef ctx),
    { name := "entry", instructions := [sumInstruction (doubleRef ctx), retInstruction] },
    sumInstruction (doubleRef ctx), retInstruction, rfl, rfl, rfl, rfl, rfl, rfl, ?_, ?_, ?_,
    rfl, ?_, ?_⟩
  · simp
  · simp [sumInstruction, retInstruction, Opcode.isTerminator]
  · simp
  · simp [sumInstruction, Opcode.isTerminator]
  · exact verifyFunction_foo _ _ _ (lookup_doubleRef ctx) (lookup_fooTypeRef ctx)

/-- C8: def-before-use for the function `codegen` verifies and returns: the
`FAdd` has the operands (argument 0 of `foo`, the constant 9 of the double
type) in that order, the `Ret` has the single operand the `FAdd` result, the
`FAdd` sits before the `Ret` in block `entry`; hence every operand of every
instruction is a constant, an argument of `foo`, or the result of an earlier
instruction of the same block. -/
theorem codegen_def_before_use (vf : LLVMContext → Function → Bool × String)
    (vm : LLVMContext → Module → Bool × String) (moduleName : String) (ctx : LLVMContext) :
    (∀ r, codegen vf vm moduleName ctx = Except.ok r →
      ∃ foo fadd ret dbl, r.1.functions = [foo] ∧ foo.name = "foo" ∧
        foo.blocks = [{ name := "entry", instructions := [fadd, ret] }] ∧
        fadd.opcode = Opcode.FAdd ∧
        fadd.operands = [Value.argument "foo" 0, Value.constant dbl 9] ∧
        r.2.lookup dbl = some (Ty.primitive PrimitiveKind.double) ∧
        foo.arguments.length = 1 ∧
        ret.opcode = Opcode.Ret ∧
        ret.operands = [Value.instruction "foo" fadd.id] ∧
        foo.locate fadd.id = some (0, 0) ∧ foo.locate ret.id = some (0, 1) ∧
        (∀ p ∈ foo.placed, ∀ v ∈ p.2.2.operands,
          (∃ t x, v = Value.constant t x) ∨
          (∃ index, v = Value.argument foo.name index ∧ index < foo.arguments.length) ∨
          (∃ id k, v = Value.instruction foo.name id ∧ foo.locate id = some (p.1, k) ∧
            k < p.2.1)) ∧
        Verifier.checkOperands foo = [] ∧
        Verifier.verifyFunction r.2 foo = []) ∧
    (∃ r, codegen llvm.verifyFunction llvm.verifyModule moduleName ctx = Except.ok r) := by
  refine ⟨?_, ⟨_, codegen_llvm moduleName ctx⟩⟩
  intro r hr
  rw [codegen_ok vf vm moduleName ctx r hr]
  have hp : (fooFunction (doubleRef ctx) (fooTypeRef ctx)).placed
      = [(0, 0, sumInstruction (doubleRef ctx)), (0, 1, retInstruction)] := rfl
  refine ⟨fooFunction (doubleRef ctx) (fooTypeRef ctx), sumInstruction (doubleRef ctx),
    retInstruction, doubleRef ctx, rfl, rfl, rfl, rfl, rfl, lookup_doubleRef ctx, rfl, rfl, rfl,
    ?_, ?_, ?_, ?_, ?_⟩
  · simp [Function.locate, hp, sumInstruction]
  · simp [Function.locate, hp, sumInstruction, retInstruction]
  · intro p hp1 v hv
    rw [hp] at hp1
    simp only [List.mem_cons, List.mem_singleton, List.not_mem_nil, or_false] at hp1
    rcases hp1 with rfl | rfl
    · simp only [sumInstruction, List.mem_cons, List.mem_singleton, List.not_mem_nil,
        or_false] at hv
      rcases hv with rfl | rfl
      · right
        left
        exact ⟨0, rfl, by simp [fooFunction]⟩
      · left
        exact ⟨_, _, rfl⟩
    · simp only [retInstruction, List.mem_cons, List.mem_singleton, List.not_mem_nil,
        or_false] at hv
      subst hv
      right
      right
      refine ⟨0, 0, rfl, ?_, by simp⟩
      simp [Function.locate, hp, sumInstruction]
  · have h := verifyFunction_foo _ _ _ (lookup_doubleRef ctx) (lookup_fooTypeRef ctx)
    rw [Verifier.verifyFunction] at h
    simp only [List.append_eq_nil] at h
    exact h.1.1.2
  · exact verifyFunction_foo _ _ _ (lookup_doubleRef ctx) (lookup_fooTypeRef ctx)

/-- C9: negative scenario: `codegen` with the `Return` left out hands the
verifier the function `foo` whose block `entry` (block 0) ends with the
`FAdd`; `verifyFunction` fails on it with a diagnostic located at that block,
so `assertFunctionCorrect` throws and no module is returned, whatever the
module verifier would say. -/
theorem codegen_without_return_fails (moduleName : String) (ctx : LLVMContext) :
    (∀ (vf : LLVMContext → Function → Bool × String)
       (vm : LLVMContext → Module → Bool × String),
      codegenOmittingReturn vf vm moduleName ctx =
        (assertFunctionCorrect (vf (finalContext ctx))
            (fooUnterminated (doubleRef ctx) (fooTypeRef ctx)) >>= fun _ =>
          assertModuleCorrect (vm (finalContext ctx))
            (unterminatedModule moduleName (doubleRef ctx) (fooTypeRef ctx)) >>= fun _ =>
          pure (unterminatedModule moduleName (doubleRef ctx) (fooTypeRef ctx),
            finalContext ctx))) ∧
    ((fooUnterminated (doubleRef ctx) (fooTypeRef ctx)).blocks[0]?).map
        (fun bb => (bb.name, bb.instructions.map (fun i => i.opcode)))
      = some ("entry", [Opcode.FAdd]) ∧
    (∃ d ∈ Verifier.verifyFunction (finalContext ctx)
        (fooUnterminated (doubleRef ctx) (fooTypeRef ctx)),
      d.location = Location.block "foo" 0) ∧
    (llvm.verifyFunction (finalContext ctx)
      (fooUnterminated (doubleRef ctx) (fooTypeRef ctx))).1 = true ∧
    (∃ what, assertFunctionCorrect (llvm.verifyFunction (finalContext ctx))
        (fooUnterminated (doubleRef ctx) (fooTypeRef ctx))
      = Except.error (Error.runtime_error what)) ∧
    (∀ vm : LLVMContext → Module → Bool × String,
      ∃ what, codegenOmittingReturn llvm.verifyFunction vm moduleName ctx
        = Except.error (Error.runtime_error what)) := by
  have hv := verifyFunction_unterminated _ _ _ (lookup_doubleRef ctx) (lookup_fooTypeRef ctx)
  have hb : (llvm.verifyFunction (finalContext ctx)
      (fooUnterminated (doubleRef ctx) (fooTypeRef ctx))).1 = true := by
    rw [llvm_verifyFunction_broken, hv]
    simp
  refine ⟨fun vf vm => codegenOmittingReturn_eq vf vm moduleName ctx, ?_, ?_, hb, ?_, ?_⟩
  · simp [fooUnterminated, sumInstruction]
  · rw [hv]
    exact ⟨_, List.mem_singleton.mpr rfl, rfl⟩
  · rw [assertFunctionCorrect_eq, if_pos hb]
    exact ⟨_, rfl⟩
  · intro vm
    rw [codegenOmittingReturn_eq, assertFunctionCorrect_eq, if_pos hb]
    exact ⟨_, rfl⟩

/-- C10: the builder preconditions hold in `codegen`: the three requests for
the double type (return type, parameter type, the constant's type) yield the
same handle, which stands for the primitive double type; at the `FAdd` both
operands have that type and `FAdd` is defined for it, so the call succeeds
and its result has the operand type; the value passed to the `Return` has the
declared return type of `foo`, so that call succeeds too; and `codegen` never
ends in `TypeMismatchError`. -/
theorem codegen_builder_preconditions (moduleName : String) (ctx : LLVMContext) :
    getDoubleTy ctx = (doubleRef ctx, (getDoubleTy ctx).2) ∧
    getDoubleTy (getDoubleTy ctx).2 = (doubleRef ctx, (getDoubleTy ctx).2) ∧
    FunctionType.get (doubleRef ctx) [doubleRef ctx] false (getDoubleTy ctx).2
      = (fooTypeRef ctx, finalContext ctx) ∧
    getDoubleTy (finalContext ctx) = (doubleRef ctx, finalContext ctx) ∧
    (finalContext ctx).lookup (doubleRef ctx) = some (Ty.primitive PrimitiveKind.double) ∧
    Opcode.FAdd.definedFor (Ty.primitive PrimitiveKind.double) = true ∧
    (∃ m1 m b result b2 m2 b3,
      Function.Create (fooTypeRef ctx) Linkage.ExternalLinkage "foo"
          ((Module.new moduleName).setSourceFileName "file.name") (finalContext ctx)
        = Except.ok ("foo", m1) ∧
      b = IRBuilder.new (BasicBlock.Create "entry" "foo" m1).1
            (BasicBlock.Create "entry" "foo" m1).2 ∧
      m = (BasicBlock.Create "entry" "foo" m1).2.setName (Value.argument "foo" 0) "arg" ∧
      m.valueType (Value.argument "foo" 0) = some (doubleRef ctx) ∧
      m.valueType (ConstantFP.get (doubleRef ctx) 9) = some (doubleRef ctx) ∧
      b.CreateFAdd (Value.argument "foo" 0) (ConstantFP.get (doubleRef ctx) 9) "sum" m
          (finalContext ctx) = Except.ok (result, b2, m2) ∧
      m2.valueType result = some (doubleRef ctx) ∧
      b2.owningReturnType m2 (finalContext ctx) = m2.valueType result ∧
      b2.CreateRet result m2 (finalContext ctx)
        = Except.ok (b3, fooModule moduleName (doubleRef ctx) (fooTypeRef ctx))) ∧
    (∀ (vf : LLVMContext → Function → Bool × String)
       (vm : LLVMContext → Module → Bool × String) (e : Error),
      codegen vf vm moduleName ctx = Except.error e → e ≠ Error.TypeMismatchError) := by
  have hd := lookup_doubleRef ctx
  have hft := lookup_fooTypeRef ctx
  have hp : (finalContext ctx).paramTypes (fooTypeRef ctx) = [doubleRef ctx] := by
    simp [LLVMContext.paramTypes, hft]
  have hr : (finalContext ctx).returnType (fooTypeRef ctx) = some (doubleRef ctx) := by
    simp [LLVMContext.returnType, hft]
  refine ⟨rfl, getDoubleTy_again ctx, rfl, getDoubleTy_final ctx, hd, by decide, ?_, ?_⟩
  · refine ⟨{ name := moduleName, sourceFileName := "file.name",
              functions := [{ name := "foo", type := fooTypeRef ctx,
                              linkage := Linkage.ExternalLinkage,
                              arguments := [{ name := "", type := doubleRef ctx }],
                              blocks := [] }] },
            _, _, Value.instruction "foo" 0, { function := "foo", block := 0, position := 1 },
            unterminatedModule moduleName (doubleRef ctx) (fooTypeRef ctx),
            { function := "foo", block := 0, position := 2 },
            ?_, rfl, rfl, ?_, ?_, ?_, ?_, ?_, ?_⟩
    · simp [Function.Create, Module.new, Module.setSourceFileName, hp]
    · simp [Module.setName, Module.valueType, Module.getFunction, BasicBlock.Create,
        Module.modifyFunction]
    · simp [Module.valueType, ConstantFP.get]
    · simp [BasicBlock.Create, Module.getFunction, Module.modifyFunction, Module.setName,
        IRBuilder.new, ConstantFP.get, IRBuilder.CreateFAdd, IRBuilder.createBinaryOp,
        Module.valueType, hd, doubleTy, Opcode.definedFor, IRBuilder.freshId,
        Function.freshId, Function.insertInstruction, unterminatedModule, fooUnterminated,
        sumInstruction]
    · simp [Module.valueType, Module.getFunction, Function.findInstruction,
        unterminatedModule, fooUnterminated, sumInstruction]
    · simp [IRBuilder.owningReturnType, Module.valueType, Module.getFunction,
        Function.findInstruction, hr, unterminatedModule, fooUnterminated, sumInstruction]
    · simp [IRBuilder.CreateRet, IRBuilder.createReturn, IRBuilder.owningReturnType,
        Module.valueType, Module.getFunction, Function.findInstruction, hr,
        Module.modifyFunction, Function.insertInstruction, IRBuilder.freshId,
        Function.freshId, fooModule, fooFunction, sumInstruction, retInstruction,
        unterminatedModule, fooUnterminated]
  · intro vf vm e he
    obtain ⟨what, rfl⟩ := codegen_error vf vm moduleName ctx e he
    simp

end SimpleJit
